import Mathlib

/-!
# lgfx_c: a C handle interface over a LovyanGFX drawing surface

A shallow embedding of `components/lgfx_c/lgfx_c.cpp` and `lgfx_c.h`.
Every `lgfx_c_*` definition below follows the body of the C++ function of the
same name.  The LovyanGFX methods those bodies call are not part of these
sources; each of them is a separate definition whose doc comment says so.
-/

namespace LgfxC

/-! ## Font registry -/

/-- Modelled from the spec: the declaration of `lgfx_font_id_t` is missing from
the sources.  It is "a closed enumeration of stable identifiers"; its members
are taken to be the identifiers named by the `case` labels of
`lgfx_c_get_font_inner`, the six live ones and the disabled ones, in the order
of the switch. -/
inductive lgfx_font_id_t
  | Font0 | Font2 | Font4 | Font6 | Font7 | Font8 | Font8x8C64 | AsciiFont8x16 | AsciiFont24x48 | TomThumb
  | FreeMono9pt7b | FreeMono12pt7b | FreeMono18pt7b | FreeMono24pt7b | FreeMonoBold9pt7b
  | FreeMonoBold12pt7b | FreeMonoBold18pt7b | FreeMonoBold24pt7b | FreeMonoOblique9pt7b
  | FreeMonoOblique12pt7b | FreeMonoOblique18pt7b | FreeMonoOblique24pt7b | FreeMonoBoldOblique9pt7b
  | FreeMonoBoldOblique12pt7b | FreeMonoBoldOblique18pt7b | FreeMonoBoldOblique24pt7b | FreeSans9pt7b
  | FreeSans12pt7b | FreeSans18pt7b | FreeSans24pt7b | FreeSansBold9pt7b | FreeSansBold12pt7b
  | FreeSansBold18pt7b | FreeSansBold24pt7b | FreeSansOblique9pt7b | FreeSansOblique12pt7b
  | FreeSansOblique18pt7b | FreeSansOblique24pt7b | FreeSansBoldOblique9pt7b | FreeSansBoldOblique12pt7b
  | FreeSansBoldOblique18pt7b | FreeSansBoldOblique24pt7b | FreeSerif9pt7b | FreeSerif12pt7b
  | FreeSerif18pt7b | FreeSerif24pt7b | FreeSerifItalic9pt7b | FreeSerifItalic12pt7b
  | FreeSerifItalic18pt7b | FreeSerifItalic24pt7b | FreeSerifBold9pt7b | FreeSerifBold12pt7b
  | FreeSerifBold18pt7b | FreeSerifBold24pt7b | FreeSerifBoldItalic9pt7b | FreeSerifBoldItalic12pt7b
  | FreeSerifBoldItalic18pt7b | FreeSerifBoldItalic24pt7b | Orbitron_Light_24 | Orbitron_Light_32
  | Roboto_Thin_24 | Satisfy_24 | Yellowtail_32 | DejaVu9 | DejaVu12 | DejaVu18 | DejaVu24 | DejaVu40 | DejaVu56
  | DejaVu72 | lgfxJapanMincho_8 | lgfxJapanMincho_12 | lgfxJapanMincho_16 | lgfxJapanMincho_20
  | lgfxJapanMincho_24 | lgfxJapanMincho_28 | lgfxJapanMincho_32 | lgfxJapanMincho_36 | lgfxJapanMincho_40
  | lgfxJapanMinchoP_8 | lgfxJapanMinchoP_12 | lgfxJapanMinchoP_16 | lgfxJapanMinchoP_20
  | lgfxJapanMinchoP_24 | lgfxJapanMinchoP_28 | lgfxJapanMinchoP_32 | lgfxJapanMinchoP_36
  | lgfxJapanMinchoP_40 | lgfxJapanGothic_8 | lgfxJapanGothic_12 | lgfxJapanGothic_16 | lgfxJapanGothic_20
  | lgfxJapanGothic_24 | lgfxJapanGothic_28 | lgfxJapanGothic_32 | lgfxJapanGothic_36 | lgfxJapanGothic_40
  | lgfxJapanGothicP_8 | lgfxJapanGothicP_12 | lgfxJapanGothicP_16 | lgfxJapanGothicP_20
  | lgfxJapanGothicP_24 | lgfxJapanGothicP_28 | lgfxJapanGothicP_32 | lgfxJapanGothicP_36
  | lgfxJapanGothicP_40 | efontCN_10 | efontCN_10_b | efontCN_10_bi | efontCN_10_i | efontCN_12 | efontCN_12_b
  | efontCN_12_bi | efontCN_12_i | efontCN_14 | efontCN_14_b | efontCN_14_bi | efontCN_14_i | efontCN_16
  | efontCN_16_b | efontCN_16_bi | efontCN_16_i | efontCN_24 | efontCN_24_b | efontCN_24_bi | efontCN_24_i
  | efontJA_10 | efontJA_10_b | efontJA_10_bi | efontJA_10_i | efontJA_12 | efontJA_12_b | efontJA_12_bi
  | efontJA_12_i | efontJA_14 | efontJA_14_b | efontJA_14_bi | efontJA_14_i | efontJA_16 | efontJA_16_b
  | efontJA_16_bi | efontJA_16_i | efontJA_24 | efontJA_24_b | efontJA_24_bi | efontJA_24_i | efontKR_10
  | efontKR_10_b | efontKR_10_bi | efontKR_10_i | efontKR_12 | efontKR_12_b | efontKR_12_bi | efontKR_12_i
  | efontKR_14 | efontKR_14_b | efontKR_14_bi | efontKR_14_i | efontKR_16 | efontKR_16_b | efontKR_16_bi
  | efontKR_16_i | efontKR_24 | efontKR_24_b | efontKR_24_bi | efontKR_24_i | efontTW_10 | efontTW_10_b
  | efontTW_10_bi | efontTW_10_i | efontTW_12 | efontTW_12_b | efontTW_12_bi | efontTW_12_i | efontTW_14
  | efontTW_14_b | efontTW_14_bi | efontTW_14_i | efontTW_16 | efontTW_16_b | efontTW_16_bi | efontTW_16_i
  | efontTW_24 | efontTW_24_b | efontTW_24_bi | efontTW_24_i  deriving DecidableEq

/-- The glyph tables of `lgfx::fonts` whose address `lgfx_c_get_font_inner`
takes.  A `const lgfx::IFont*` is an `Option IFont`, `none` being `nullptr`. -/
inductive IFont
  | Font0 | Font2 | Font4 | Font6 | Font7 | Font8
  deriving DecidableEq

/-- The switch of `lgfx_c_get_font_inner`: six live cases, `default: return nullptr`. -/
def lgfx_c_get_font_inner (id : lgfx_font_id_t) : Option IFont :=
  match id with
  | .Font0 => some IFont.Font0
  | .Font2 => some IFont.Font2
  | .Font4 => some IFont.Font4
  | .Font6 => some IFont.Font6
  | .Font7 => some IFont.Font7
  | .Font8 => some IFont.Font8
  | _ => none

/-! ## Handles, colours and objects -/

/-- What leaves a function of the interface instead of a result:
`std::bad_alloc`, raised by a plain `new` that cannot allocate. -/
inductive Exception
  | bad_alloc
  deriving DecidableEq

/-- The handle type `lgfx_target_t`: a `LovyanGFX*` seen through
`reinterpret_cast`.  It is null, the address of the file-scope `static LGFX gfx`,
or the address of an object obtained from `new`. -/
inductive lgfx_target_t
  | nullptr
  | gfx
  | heap (addr : Nat)
  deriving DecidableEq

/-- The colour constants of LovyanGFX that the interface names; their numeric
values are not in the sources. -/
inductive colors
  | TFT_WHITE
  | TFT_BLACK
  deriving DecidableEq

/-- A colour as an entry point receives it: the `uint8_t` of the `rgb332`
family, the `uint32_t` of the `rgb888` family, or a grayscale sample, an
"intensity with a chosen black-point and white-point mapped to two reference
colors": `white` is the colour of full intensity and `black` the colour of zero
intensity.  The three are kept apart by the tag. -/
inductive Color
  | rgb332 (c : Nat)
  | rgb888 (c : Nat)
  | grayscale (intensity : Nat) (white black : colors)
  deriving DecidableEq

/-- Modelled from the spec: the enumeration `color_depth_t` of LovyanGFX (not in
the sources).  The interface names one member, `grayscale_8bit`; `other` stands
for the members it does not name. -/
inductive color_depth_t
  | grayscale_8bit
  | other (code : Nat)
  deriving DecidableEq

/-- Modelled from the spec: the "display-refresh-quality mode" `epd_mode_t` of
LovyanGFX (not in the sources).  The interface names one member, `epd_quality`;
`other` stands for the members it does not name. -/
inductive epd_mode_t
  | epd_quality
  | other (code : Nat)
  deriving DecidableEq

/-- The content of a drawing surface or of a pixel buffer, by coordinates. -/
abbrev Pixels := Int → Int → Color

/-- Modelled from the spec: the part of the class `LovyanGFX` the interface
observes (the class is not in the sources): "pixel dimensions (width, height as
signed 32-bit extents), a cursor position for text", and the active font. -/
structure LovyanGFX where
  width : Int
  height : Int
  font : IFont
  cursor_x : Int
  cursor_y : Int

/-- Modelled from the spec: the "Buffer" of §3 behind a sprite, with its
ownership tag: none yet, *Owned* (a block of the library heap) or *Borrowed*
(caller memory with its declared bits per pixel). -/
inductive SpriteBuffer
  | empty
  | owned (addr : Nat)
  | borrowed (ptr : Nat) (bpp : Nat)
  deriving DecidableEq

/-- Modelled from the spec: the class `LGFX_Sprite` (not in the sources): a
target that "always references its creating Target (parent)" and has a buffer. -/
structure LGFX_Sprite where
  base : LovyanGFX
  parent : lgfx_target_t
  img : SpriteBuffer

/-- Modelled from the spec: the class `LGFX` of the device (not in the
sources): a target bound to the panel, whose frame content is `panel`, and
which "additionally carries a display-refresh-quality mode". -/
structure LGFX where
  base : LovyanGFX
  panel : Pixels
  epd_mode : epd_mode_t

/-- The memory the interface works on: the static device object, the sprite
objects made by `new` (by address), the pixel blocks the library allocated (by
address) and the caller's own memory (by region address). -/
structure World where
  gfx : LGFX
  sprites : List (Nat × LGFX_Sprite)
  heap : List (Nat × Pixels)
  caller : Nat → Pixels

/-! ## Address tables -/

namespace Table

variable {α : Type}

/-- The block at address `k`, when there is one. -/
def find (k : Nat) : List (Nat × α) → Option α
  | [] => none
  | (k', v) :: l => if k' = k then some v else find k l

/-- Overwrite the block at address `k`. -/
def replace (k : Nat) (v : α) : List (Nat × α) → List (Nat × α)
  | [] => []
  | (k', v') :: l => if k' = k then (k, v) :: l else (k', v') :: replace k v l

/-- Release address `k`. -/
def remove (k : Nat) : List (Nat × α) → List (Nat × α)
  | [] => []
  | (k', v') :: l => if k' = k then remove k l else (k', v') :: remove k l

/-- A non-null address above every address in use: where the allocator puts
the next block. -/
def fresh : List (Nat × α) → Nat
  | [] => 1
  | (k, _) :: l => max (k + 1) (fresh l)

end Table

/-! ## The object behind a handle -/

/-- The `LovyanGFX` object a handle points to (`reinterpret_cast<LovyanGFX*>`);
`none` for null and for an address with no live object. -/
def World.target (w : World) : lgfx_target_t → Option LovyanGFX
  | .nullptr => none
  | .gfx => some w.gfx.base
  | .heap a => (Table.find a w.sprites).map (fun s => s.base)

/-- Store `b` back into the object a handle points to. -/
def World.setTarget (w : World) (t : lgfx_target_t) (b : LovyanGFX) : World :=
  match t with
  | .nullptr => w
  | .gfx => { w with gfx := { w.gfx with base := b } }
  | .heap a =>
    match Table.find a w.sprites with
    | none => w
    | some s => { w with sprites := Table.replace a { s with base := b } w.sprites }

/-- The pixel content of the surface behind a handle: the panel for the device,
the attached buffer for a sprite. -/
def World.pixels (w : World) : lgfx_target_t → Option Pixels
  | .nullptr => none
  | .gfx => some w.gfx.panel
  | .heap a =>
    match Table.find a w.sprites with
    | none => none
    | some s =>
      match s.img with
      | .empty => none
      | .owned b => Table.find b w.heap
      | .borrowed p _ => some (w.caller p)

/-- Write the pixel content of the surface behind a handle. -/
def World.setPixels (w : World) (t : lgfx_target_t) (px : Pixels) : World :=
  match t with
  | .nullptr => w
  | .gfx => { w with gfx := { w.gfx with panel := px } }
  | .heap a =>
    match Table.find a w.sprites with
    | none => w
    | some s =>
      match s.img with
      | .empty => w
      | .owned b => { w with heap := Table.replace b px w.heap }
      | .borrowed p _ => { w with caller := Function.update w.caller p px }

/-- The points of a surface: `[0, width) x [0, height)`. -/
def LovyanGFX.inBounds (b : LovyanGFX) (px py : Int) : Prop :=
  0 ≤ px ∧ px < b.width ∧ 0 ≤ py ∧ py < b.height

instance (b : LovyanGFX) (px py : Int) : Decidable (b.inBounds px py) := by
  unfold LovyanGFX.inBounds; infer_instance

/-! ## The LovyanGFX methods the interface calls -/

namespace lgfx

/-- Modelled from the spec: `LovyanGFX::width` (the library is not in the
sources): the "current drawing extents; side-effect free". -/
def width (w : World) (self : lgfx_target_t) : Int :=
  match w.target self with
  | some b => b.width
  | none => 0

/-- Modelled from the spec: `LovyanGFX::height`, as `width`. -/
def height (w : World) (self : lgfx_target_t) : Int :=
  match w.target self with
  | some b => b.height
  | none => 0

/-- Modelled from the spec: `LovyanGFX::clear` (not in the sources): "fills the
entire surface with one color". -/
def clear (w : World) (self : lgfx_target_t) (c : Color) : World :=
  match w.target self, w.pixels self with
  | some b, some old =>
    w.setPixels self (fun px py => if b.inBounds px py then c else old px py)
  | _, _ => w

/-- Modelled from the spec: `LovyanGFX::fillRect` (not in the sources): "fills
an axis-aligned rectangle", the points of `[x, x+wd) x [y, y+ht)`, "clipped to
the visible region". -/
def fillRect (w : World) (self : lgfx_target_t) (x y wd ht : Int) (c : Color) : World :=
  match w.target self, w.pixels self with
  | some b, some old =>
    w.setPixels self (fun px py =>
      if x ≤ px ∧ px < x + wd ∧ y ≤ py ∧ py < y + ht ∧ b.inBounds px py then c
      else old px py)
  | _, _ => w

/-- Modelled from the spec: `LovyanGFX::setFont` (not in the sources):
"replaces the active font reference for subsequent text operations". -/
def setFont (w : World) (self : lgfx_target_t) (font : IFont) : World :=
  match w.target self with
  | some b => w.setTarget self { b with font := font }
  | none => w

/-- Modelled from the spec: the constructor `LGFX_Sprite(parent)` (not in the
sources): a sprite that references its creating target and has no buffer yet;
the spec gives no initial extents or text state, taken as empty and `Font0`. -/
def LGFX_Sprite_ctor (parent : lgfx_target_t) : LGFX_Sprite :=
  { base := { width := 0, height := 0, font := IFont.Font0, cursor_x := 0, cursor_y := 0 }
    parent := parent
    img := SpriteBuffer.empty }

/-- The expression `new LGFX_Sprite(parent)`, a plain `new`: `ok` is the
allocator's answer.  On success the object lives at a fresh address; on failure
the expression yields no pointer at all but raises `std::bad_alloc` (a build
without exceptions aborts there), so the call it is part of does not return. -/
def operator_new (w : World) (ok : Bool) (parent : lgfx_target_t) :
    Except Exception (Nat × World) :=
  if ok then
    Except.ok (Table.fresh w.sprites,
      { w with sprites := (Table.fresh w.sprites, LGFX_Sprite_ctor parent) :: w.sprites })
  else Except.error Exception.bad_alloc

/-- Modelled from the spec: `LGFX_Sprite::createSprite` (not in the sources):
"allocates a buffer sized for w*h pixels", *Owned* by the sprite; returns null
when the allocation fails.  `mem` is the allocator's answer: `none`, or the
content the fresh block happens to have. -/
def createSprite (w : World) (self : Nat) (wd ht : Int) (mem : Option Pixels) :
    Option Nat × World :=
  match Table.find self w.sprites, mem with
  | some s, some init =>
    (some (Table.fresh w.heap),
      { w with
        heap := (Table.fresh w.heap, init) :: w.heap
        sprites := Table.replace self
          { s with base := { s.base with width := wd, height := ht }
                   img := SpriteBuffer.owned (Table.fresh w.heap) } w.sprites })
  | _, _ => (none, w)

/-- Modelled from the spec: `LGFX_Sprite::setBuffer` (not in the sources):
"wraps caller-supplied memory" with its "declared bits-per-pixel", *Borrowed*. -/
def setBuffer (w : World) (self : Nat) (buffer : Nat) (wd ht : Int) (bpp : Nat) : World :=
  match Table.find self w.sprites with
  | some s =>
    { w with
      sprites := Table.replace self
        { s with base := { s.base with width := wd, height := ht }
                 img := SpriteBuffer.borrowed buffer bpp } w.sprites }
  | none => w

/-- Modelled from the spec: `LGFX_Sprite::pushSprite` (not in the sources):
"composites the sprite's current pixel contents onto its parent Target at the
given origin, clipped to parent bounds; does not mutate or free the sprite". -/
def pushSprite (w : World) (self : Nat) (x y : Int) : World :=
  match Table.find self w.sprites with
  | none => w
  | some s =>
    match w.pixels (lgfx_target_t.heap self), w.target s.parent, w.pixels s.parent with
    | some src, some pb, some dst =>
      w.setPixels s.parent (fun px py =>
        if x ≤ px ∧ px < x + s.base.width ∧ y ≤ py ∧ py < y + s.base.height
            ∧ pb.inBounds px py then src (px - x) (py - y)
        else dst px py)
    | _, _, _ => w

/-- Modelled from the spec: the expression `delete sprite` (destructor of
`LGFX_Sprite`, not in the sources, then release of the object): it "releases
the sprite's owned buffer (Owned variant) or leaves caller memory untouched
(Borrowed variant), then releases the handle itself". -/
def operator_delete (w : World) (self : Nat) : World :=
  match Table.find self w.sprites with
  | none => w
  | some s =>
    match s.img with
    | .owned b =>
      { w with heap := Table.remove b w.heap, sprites := Table.remove self w.sprites }
    | _ => { w with sprites := Table.remove self w.sprites }

/-- Modelled from the spec: `LGFX::setEpdMode` (not in the sources): sets the
"display-refresh-quality mode" the device carries. -/
def setEpdMode (w : World) (mode : epd_mode_t) : World :=
  { w with gfx := { w.gfx with epd_mode := mode } }

/-- Modelled from the spec: `LovyanGFX::pushGrayscaleImage` (not in the
sources): it "blits a caller-supplied rectangular pixel buffer at the given
origin", each sample an "intensity with a chosen black-point and white-point
mapped to two reference colors".  `image k` is the byte at offset `k` of the
buffer, rows first; `forecolor` is taken as the colour of full intensity and
`backcolor` as the colour of zero intensity.  Only the depth the interface
uses is modelled. -/
def pushGrayscaleImage (w : World) (self : lgfx_target_t) (x y wd ht : Int)
    (image : Nat → Nat) (depth : color_depth_t) (forecolor backcolor : colors) : World :=
  match depth with
  | .grayscale_8bit =>
    match w.target self, w.pixels self with
    | some b, some old =>
      w.setPixels self (fun px py =>
        if x ≤ px ∧ px < x + wd ∧ y ≤ py ∧ py < y + ht ∧ b.inBounds px py then
          Color.grayscale (image ((py - y) * wd + (px - x)).toNat) forecolor backcolor
        else old px py)
    | _, _ => w
  | .other _ => w

end lgfx

/-! ## The interface: `lgfx_c.cpp` -/

/-- The function `lgfx_c_setup`: `gfx.init()`, `gfx.setEpdMode(epd_quality)`,
then the address of the static `gfx`.  `init` is what `LGFX::init` (panel
detection and bus set-up, not in the sources) leaves in the device object. -/
def lgfx_c_setup (init : LGFX → LGFX) (w : World) : lgfx_target_t × World :=
  (lgfx_target_t.gfx,
    lgfx.setEpdMode { w with gfx := init w.gfx } epd_mode_t.epd_quality)

/-- The function `lgfx_c_push_image_grayscale`:
`pushGrayscaleImage(x, y, w, h, data, grayscale_8bit, TFT_WHITE, TFT_BLACK)`. -/
def lgfx_c_push_image_grayscale (w : World) (target : lgfx_target_t) (x y wd ht : Int)
    (data : Nat → Nat) : World :=
  lgfx.pushGrayscaleImage w target x y wd ht data color_depth_t.grayscale_8bit
    colors.TFT_WHITE colors.TFT_BLACK

/-- The function `lgfx_c_width`. -/
def lgfx_c_width (w : World) (target : lgfx_target_t) : Int :=
  lgfx.width w target

/-- The function `lgfx_c_height`. -/
def lgfx_c_height (w : World) (target : lgfx_target_t) : Int :=
  lgfx.height w target

/-- The function `lgfx_c_clear_rgb332`; `color` is a `uint8_t`. -/
def lgfx_c_clear_rgb332 (w : World) (target : lgfx_target_t) (color : Nat) : World :=
  lgfx.clear w target (Color.rgb332 color)

/-- The function `lgfx_c_clear_rgb888`; `color` is a `uint32_t`. -/
def lgfx_c_clear_rgb888 (w : World) (target : lgfx_target_t) (color : Nat) : World :=
  lgfx.clear w target (Color.rgb888 color)

/-- The function `lgfx_c_fill_rect_rgb332`: `fillRect(left, top, width, height, rgb332_t(color))`. -/
def lgfx_c_fill_rect_rgb332 (w : World) (target : lgfx_target_t)
    (left top width height : Int) (color : Nat) : World :=
  lgfx.fillRect w target left top width height (Color.rgb332 color)

/-- The function `lgfx_c_fill_rect_rgb888`: `fillRect(left, top, width, height, rgb888_t(color))`. -/
def lgfx_c_fill_rect_rgb888 (w : World) (target : lgfx_target_t)
    (left top width height : Int) (color : Nat) : World :=
  lgfx.fillRect w target left top width height (Color.rgb888 color)

/-- The function `lgfx_c_create_sprite`.  `obj` and `mem` are the answers of
the two allocations it makes.  The result is the returned handle with the
memory after the call, or the exception that left the function.  The guard
`if( sprite == nullptr ) return nullptr;` is kept as written; the pointer a
plain `new` yields is never null. -/
def lgfx_c_create_sprite (w : World) (target : lgfx_target_t) (wd ht : Int)
    (obj : Bool) (mem : Option Pixels) : Except Exception (lgfx_target_t × World) :=
  match lgfx.operator_new w obj target with
  | Except.error e => Except.error e
  | Except.ok (sprite, w1) =>
    if lgfx_target_t.heap sprite = lgfx_target_t.nullptr then
      Except.ok (lgfx_target_t.nullptr, w1)
    else
      match lgfx.createSprite w1 sprite wd ht mem with
      | (none, w2) => Except.ok (lgfx_target_t.nullptr, lgfx.operator_delete w2 sprite)
      | (some _, w2) => Except.ok (lgfx_target_t.heap sprite, w2)

/-- The function `lgfx_c_create_sprite_static`.  `obj` is the answer of the
allocation it makes; `buffer` is the caller's `void*`, `bpp` a `uint8_t`.  The
result is the returned handle with the memory after the call, or the exception
that left the function; the guard is kept as in `lgfx_c_create_sprite`. -/
def lgfx_c_create_sprite_static (w : World) (target : lgfx_target_t) (wd ht : Int)
    (buffer : Nat) (bpp : Nat) (obj : Bool) : Except Exception (lgfx_target_t × World) :=
  match lgfx.operator_new w obj target with
  | Except.error e => Except.error e
  | Except.ok (sprite, w1) =>
    if lgfx_target_t.heap sprite = lgfx_target_t.nullptr then
      Except.ok (lgfx_target_t.nullptr, w1)
    else
      Except.ok (lgfx_target_t.heap sprite, lgfx.setBuffer w1 sprite buffer wd ht bpp)

/-- The function `lgfx_c_push_sprite`: the handle is cast to `LGFX_Sprite*`.
A handle that is not the address of a sprite is outside the contract of the
cast; the memory is then left as it is. -/
def lgfx_c_push_sprite (w : World) (target : lgfx_target_t) (x y : Int) : World :=
  match target with
  | .heap sprite => lgfx.pushSprite w sprite x y
  | _ => w

/-- The function `lgfx_c_delete_sprite`: `delete` under the guard
`target != nullptr`.  A non-null handle that is not the address of a sprite is
outside the contract of the cast; the memory is then left as it is. -/
def lgfx_c_delete_sprite (w : World) (target : lgfx_target_t) : World :=
  if target ≠ lgfx_target_t.nullptr then
    match target with
    | .heap sprite => lgfx.operator_delete w sprite
    | _ => w
  else w

/-- The function `lgfx_c_set_font`: the returned `bool` and the memory after
the call. -/
def lgfx_c_set_font (w : World) (target : lgfx_target_t) (id : lgfx_font_id_t) :
    Bool × World :=
  match lgfx_c_get_font_inner id with
  | none => (false, w)
  | some font => (true, lgfx.setFont w target font)

/-! ## Anchors: `lgfx_c.h` -/

/-- The enumerators of `enum textdatum_t`, in the order of the header. -/
inductive textdatum_t
  | top_left | top_center | top_centre | top_right
  | middle_left | middle_center | middle_centre | middle_right
  | bottom_left | bottom_center | bottom_centre | bottom_right
  | baseline_left | baseline_center | baseline_centre | baseline_right
  deriving DecidableEq

/-- The value the header gives each enumerator. -/
def textdatum_t.toInt : textdatum_t → Int
  | .top_left => 0
  | .top_center => 1
  | .top_centre => 1
  | .top_right => 2
  | .middle_left => 4
  | .middle_center => 5
  | .middle_centre => 5
  | .middle_right => 6
  | .bottom_left => 8
  | .bottom_center => 9
  | .bottom_centre => 9
  | .bottom_right => 10
  | .baseline_left => 16
  | .baseline_center => 17
  | .baseline_centre => 17
  | .baseline_right => 18

/-- Every enumerator of `textdatum_t`, in the order of the header. -/
def textdatum_t.members : List textdatum_t :=
  [.top_left, .top_center, .top_centre, .top_right,
   .middle_left, .middle_center, .middle_centre, .middle_right,
   .bottom_left, .bottom_center, .bottom_centre, .bottom_right,
   .baseline_left, .baseline_center, .baseline_centre, .baseline_right]

/-- The vertical alignments, with the codes of the header comment
`0:top 4:middle 8:bottom 16:baseline`. -/
inductive Vertical
  | top | middle | bottom | baseline
  deriving DecidableEq

/-- The horizontal alignments, with the codes of the header comment
`0:left 1:centre 2:right`. -/
inductive Horizontal
  | left | centre | right
  deriving DecidableEq

/-- The code of a vertical alignment. -/
def Vertical.code : Vertical → Int
  | .top => 0
  | .middle => 4
  | .bottom => 8
  | .baseline => 16

/-- The code of a horizontal alignment. -/
def Horizontal.code : Horizontal → Int
  | .left => 0
  | .centre => 1
  | .right => 2

/-- The vertical alignment an enumerator is named after. -/
def textdatum_t.vertical : textdatum_t → Vertical
  | .top_left | .top_center | .top_centre | .top_right => Vertical.top
  | .middle_left | .middle_center | .middle_centre | .middle_right => Vertical.middle
  | .bottom_left | .bottom_center | .bottom_centre | .bottom_right => Vertical.bottom
  | .baseline_left | .baseline_center | .baseline_centre | .baseline_right =>
    Vertical.baseline

/-- The horizontal alignment an enumerator is named after; `center` and
`centre` are two spellings of one alignment. -/
def textdatum_t.horizontal : textdatum_t → Horizontal
  | .top_left | .middle_left | .bottom_left | .baseline_left => Horizontal.left
  | .top_center | .middle_center | .bottom_center | .baseline_center => Horizontal.centre
  | .top_centre | .middle_centre | .bottom_centre | .baseline_centre => Horizontal.centre
  | .top_right | .middle_right | .bottom_right | .baseline_right => Horizontal.right

/-! ## Sample memories -/

/-- A device of the given extents whose panel is black, with no sprite and
black caller memory. -/
def World.black (wd ht : Int) : World :=
  { gfx := { base := { width := wd, height := ht, font := IFont.Font0, cursor_x := 0, cursor_y := 0 }
             panel := fun _ _ => Color.rgb888 0
             epd_mode := epd_mode_t.epd_quality }
    sprites := []
    heap := []
    caller := fun _ _ _ => Color.rgb888 0 }

/-! ## Facts about address tables -/

namespace Table

variable {α : Type}

theorem find_lt_fresh {k : Nat} {v : α} {l : List (Nat × α)} (h : find k l = some v) :
    k < fresh l := by
  induction l with
  | nil => simp [find] at h
  | cons p l ih =>
    obtain ⟨k', v'⟩ := p
    simp only [find] at h
    simp only [fresh]
    by_cases hk : k' = k
    · subst hk; omega
    · rw [if_neg hk] at h
      have := ih h
      omega

theorem find_fresh (l : List (Nat × α)) : find (fresh l) l = none := by
  cases hf : find (fresh l) l with
  | none => rfl
  | some v => exact absurd (find_lt_fresh hf) (Nat.lt_irrefl _)

theorem remove_of_find_none {k : Nat} {l : List (Nat × α)} (h : find k l = none) :
    remove k l = l := by
  induction l with
  | nil => rfl
  | cons p l ih =>
    obtain ⟨k', v'⟩ := p
    simp only [find] at h
    by_cases hk : k' = k
    · rw [if_pos hk] at h; cases h
    · rw [if_neg hk] at h
      simp [remove, hk, ih h]

theorem find_remove_self (k : Nat) (l : List (Nat × α)) : find k (remove k l) = none := by
  induction l with
  | nil => rfl
  | cons p l ih =>
    obtain ⟨k', v'⟩ := p
    by_cases hk : k' = k
    · simp [remove, hk, ih]
    · simp [remove, find, hk, ih]

theorem find_remove_ne {k j : Nat} (h : j ≠ k) (l : List (Nat × α)) :
    find j (remove k l) = find j l := by
  induction l with
  | nil => rfl
  | cons p l ih =>
    obtain ⟨k', v'⟩ := p
    by_cases hk : k' = k
    · have hj : ¬ k' = j := fun e => h (e ▸ hk)
      simp only [remove, find, if_pos hk, if_neg hj, ih]
    · simp only [remove, find, if_neg hk, ih]

theorem find_replace_self {k : Nat} {v : α} {l : List (Nat × α)} (v' : α)
    (h : find k l = some v) : find k (replace k v' l) = some v' := by
  induction l with
  | nil => simp [find] at h
  | cons p l ih =>
    obtain ⟨k', u⟩ := p
    simp only [find] at h
    by_cases hk : k' = k
    · simp [replace, find, hk]
    · rw [if_neg hk] at h
      simp [replace, find, hk, ih h]

theorem find_replace_ne {k j : Nat} (h : j ≠ k) (v' : α) (l : List (Nat × α)) :
    find j (replace k v' l) = find j l := by
  induction l with
  | nil => rfl
  | cons p l ih =>
    obtain ⟨k', u⟩ := p
    by_cases hk : k' = k
    · have hj : ¬ k' = j := fun e => h (e ▸ hk)
      have hj' : ¬ k = j := fun e => h e.symm
      simp only [replace, find, if_pos hk, if_neg hj, if_neg hj']
    · simp only [replace, find, if_neg hk, ih]

theorem replace_self {k : Nat} {v : α} {l : List (Nat × α)} (h : find k l = some v) :
    replace k v l = l := by
  induction l with
  | nil => rfl
  | cons p l ih =>
    obtain ⟨k', u⟩ := p
    simp only [find] at h
    by_cases hk : k' = k
    · rw [if_pos hk] at h
      cases h
      simp [replace, hk]
    · rw [if_neg hk] at h
      simp [replace, hk, ih h]

end Table

/-! ## Facts about reading and writing through a handle -/

theorem World.target_setTarget {w : World} {t : lgfx_target_t} {b : LovyanGFX}
    (b' : LovyanGFX) (h : w.target t = some b) : (w.setTarget t b').target t = some b' := by
  cases t with
  | nullptr => simp [World.target] at h
  | gfx => rfl
  | heap a =>
    simp only [World.target] at h
    cases hf : Table.find a w.sprites with
    | none => rw [hf] at h; simp at h
    | some s =>
      simp only [World.setTarget, hf, World.target]
      rw [Table.find_replace_self _ hf]
      rfl

theorem World.target_setPixels (w : World) (t u : lgfx_target_t) (p : Pixels) :
    (w.setPixels t p).target u = w.target u := by
  cases t with
  | nullptr => rfl
  | gfx => cases u <;> rfl
  | heap a =>
    simp only [World.setPixels]
    cases Table.find a w.sprites with
    | none => rfl
    | some s =>
      obtain ⟨sb, sp, si⟩ := s
      cases si <;> cases u <;> rfl

theorem World.pixels_setPixels {w : World} {t : lgfx_target_t} {old : Pixels}
    (p : Pixels) (h : w.pixels t = some old) : (w.setPixels t p).pixels t = some p := by
  cases t with
  | nullptr => simp [World.pixels] at h
  | gfx => rfl
  | heap a =>
    simp only [World.pixels] at h
    cases hf : Table.find a w.sprites with
    | none => rw [hf] at h; simp at h
    | some s =>
      rw [hf] at h
      obtain ⟨sb, sp, si⟩ := s
      cases si with
      | empty => simp at h
      | owned b =>
        simp only at h
        simp only [World.setPixels, World.pixels, hf]
        exact Table.find_replace_self _ h
      | borrowed q bpp =>
        simp only [World.setPixels, World.pixels, hf, Function.update_same]

theorem World.setPixels_self {w : World} {t : lgfx_target_t} {old : Pixels}
    (h : w.pixels t = some old) : w.setPixels t old = w := by
  cases t with
  | nullptr => rfl
  | gfx =>
    simp only [World.pixels, Option.some.injEq] at h
    simp only [World.setPixels, ← h]
  | heap a =>
    simp only [World.pixels] at h
    cases hf : Table.find a w.sprites with
    | none => simp only [World.setPixels, hf]
    | some s =>
      rw [hf] at h
      obtain ⟨sb, sp, si⟩ := s
      cases si with
      | empty => simp only [World.setPixels, hf]
      | owned b =>
        simp only at h
        simp only [World.setPixels, hf, Table.replace_self h]
      | borrowed q bpp =>
        simp only [Option.some.injEq] at h
        simp only [World.setPixels, hf, ← h, Function.update_eq_self]

/-- A live target is still the same object after a sprite object and a pixel
block have been put at fresh addresses. -/
theorem World.target_cons_fresh {w : World} {t : lgfx_target_t} {b : LovyanGFX}
    (h : w.target t = some b) (spr : LGFX_Sprite) (hp : List (Nat × Pixels)) :
    ({ w with heap := hp, sprites := (Table.fresh w.sprites, spr) :: w.sprites } : World).target t
      = some b := by
  cases t with
  | nullptr => simp [World.target] at h
  | gfx => exact h
  | heap k =>
    simp only [World.target] at h
    cases hf : Table.find k w.sprites with
    | none => rw [hf] at h; simp at h
    | some s =>
      have hk : ¬ Table.fresh w.sprites = k := fun e =>
        absurd (Table.find_lt_fresh hf) (by omega)
      rw [hf] at h
      simp only [World.target, Table.find, if_neg hk, hf]
      exact h

/-- The content of a live surface is still the same after a sprite object and a
pixel block have been put at fresh addresses. -/
theorem World.pixels_cons_fresh {w : World} {t : lgfx_target_t} {old : Pixels}
    (h : w.pixels t = some old) (spr : LGFX_Sprite) (px : Pixels) :
    ({ w with heap := (Table.fresh w.heap, px) :: w.heap
              sprites := (Table.fresh w.sprites, spr) :: w.sprites } : World).pixels t
      = some old := by
  cases t with
  | nullptr => simp [World.pixels] at h
  | gfx => exact h
  | heap k =>
    simp only [World.pixels] at h
    cases hf : Table.find k w.sprites with
    | none => rw [hf] at h; simp at h
    | some s =>
      have hk : ¬ Table.fresh w.sprites = k := fun e =>
        absurd (Table.find_lt_fresh hf) (by omega)
      rw [hf] at h
      obtain ⟨sb, sp, si⟩ := s
      cases si with
      | empty => simp at h
      | owned b =>
        simp only at h
        have hb : ¬ Table.fresh w.heap = b := fun e =>
          absurd (Table.find_lt_fresh h) (by omega)
        simp only [World.pixels, Table.find, if_neg hk, hf, if_neg hb]
        exact h
      | borrowed q bpp =>
        simp only [World.pixels, Table.find, if_neg hk, hf]
        exact h

/-- The body of `pushSprite` for a live sprite with a buffer and a live parent. -/
theorem pushSprite_live {w : World} {a : Nat} {s : LGFX_Sprite} {src dst : Pixels}
    {pb : LovyanGFX} (x y : Int) (hf : Table.find a w.sprites = some s)
    (hsrc : w.pixels (lgfx_target_t.heap a) = some src)
    (htb : w.target s.parent = some pb) (hdst : w.pixels s.parent = some dst) :
    lgfx.pushSprite w a x y =
      w.setPixels s.parent (fun px py =>
        if x ≤ px ∧ px < x + s.base.width ∧ y ≤ py ∧ py < y + s.base.height
            ∧ pb.inBounds px py then src (px - x) (py - y)
        else dst px py) := by
  simp only [lgfx.pushSprite, hf, hsrc, htb, hdst]

/-- A `fillRect` whose rectangle has no point on the surface changes nothing. -/
theorem fillRect_no_point (w : World) (t : lgfx_target_t) (x y wd ht : Int) (c : Color)
    (h : ∀ b, w.target t = some b → ∀ px py,
      ¬ (x ≤ px ∧ px < x + wd ∧ y ≤ py ∧ py < y + ht ∧ b.inBounds px py)) :
    lgfx.fillRect w t x y wd ht c = w := by
  cases htg : w.target t with
  | none => simp only [lgfx.fillRect, htg]
  | some b =>
    cases hpx : w.pixels t with
    | none => simp only [lgfx.fillRect, htg, hpx]
    | some old =>
      simp only [lgfx.fillRect, htg, hpx]
      have e : (fun px py =>
          if x ≤ px ∧ px < x + wd ∧ y ≤ py ∧ py < y + ht ∧ b.inBounds px py then c
          else old px py) = old := by
        funext px py
        exact if_neg (h b htg px py)
      rw [e]
      exact World.setPixels_self hpx

/-! ## The font registry and `set_font` -/

/-- C1: when the registry does not resolve the identifier, `lgfx_c_set_font`
returns `false` and the memory after the call is the memory before it; so the
object behind the target, and with it the font a later text operation reads,
is the one from before the call. -/
theorem set_font_unresolved (w : World) (target : lgfx_target_t) (id : lgfx_font_id_t)
    (h : lgfx_c_get_font_inner id = none) :
    lgfx_c_set_font w target id = (false, w) ∧
    (lgfx_c_set_font w target id).2.target target = w.target target ∧
    ((lgfx_c_set_font w target id).2.target target).map (fun b => b.font)
      = (w.target target).map (fun b => b.font) := by
  have e : lgfx_c_set_font w target id = (false, w) := by
    simp only [lgfx_c_set_font, h]
  rw [e]
  exact ⟨rfl, rfl, rfl⟩

/-- Witness of C1: `Font8x8C64` is a disabled case; setting it on the device
fails and keeps its `Font0`. -/
theorem set_font_unresolved_witness :
    lgfx_c_get_font_inner lgfx_font_id_t.Font8x8C64 = none ∧
    lgfx_c_set_font (World.black 320 240) lgfx_target_t.gfx lgfx_font_id_t.Font8x8C64
      = (false, World.black 320 240) ∧
    ((lgfx_c_set_font (World.black 320 240) lgfx_target_t.gfx
        lgfx_font_id_t.Font8x8C64).2.target lgfx_target_t.gfx).map (fun b => b.font)
      = some IFont.Font0 :=
  ⟨rfl,
   (set_font_unresolved (World.black 320 240) lgfx_target_t.gfx
      lgfx_font_id_t.Font8x8C64 rfl).1,
   rfl⟩

/-- C2: `lgfx_c_set_font` returns `true` exactly when the registry resolves the
identifier, and then the object behind a live target is the one from before
the call with its font replaced by the reference the registry returned. -/
theorem set_font_success (w : World) (target : lgfx_target_t) (id : lgfx_font_id_t) :
    ((lgfx_c_set_font w target id).1 = true ↔ ∃ font, lgfx_c_get_font_inner id = some font) ∧
    (∀ font b, lgfx_c_get_font_inner id = some font → w.target target = some b →
      (lgfx_c_set_font w target id).2.target target = some { b with font := font }) := by
  constructor
  · cases h : lgfx_c_get_font_inner id with
    | none => simp [lgfx_c_set_font, h]
    | some f => simp [lgfx_c_set_font, h]
  · intro font b hf hb
    simp only [lgfx_c_set_font, hf, lgfx.setFont, hb]
    exact World.target_setTarget _ hb

/-- Witness of C2: `Font4` set on a device that had `Font0`. -/
theorem set_font_success_witness :
    (lgfx_c_set_font (World.black 320 240) lgfx_target_t.gfx lgfx_font_id_t.Font4).2.target
        lgfx_target_t.gfx
      = some { width := 320, height := 240, font := IFont.Font4, cursor_x := 0, cursor_y := 0 } :=
  (set_font_success (World.black 320 240) lgfx_target_t.gfx lgfx_font_id_t.Font4).2
    IFont.Font4 (World.black 320 240).gfx.base rfl rfl

/-- C3: the registry lookup returns a glyph table exactly for `Font0`, `Font2`,
`Font4`, `Font6`, `Font7` and `Font8`, each time the table of the same name,
and `nullptr` for every other identifier. -/
theorem get_font_inner_table :
    (∀ id font, lgfx_c_get_font_inner id = some font ↔
      (id, font) ∈ [(lgfx_font_id_t.Font0, IFont.Font0), (lgfx_font_id_t.Font2, IFont.Font2),
        (lgfx_font_id_t.Font4, IFont.Font4), (lgfx_font_id_t.Font6, IFont.Font6),
        (lgfx_font_id_t.Font7, IFont.Font7), (lgfx_font_id_t.Font8, IFont.Font8)]) ∧
    (∀ id, lgfx_c_get_font_inner id = none ↔
      id ∉ [lgfx_font_id_t.Font0, lgfx_font_id_t.Font2, lgfx_font_id_t.Font4,
        lgfx_font_id_t.Font6, lgfx_font_id_t.Font7, lgfx_font_id_t.Font8]) := by
  constructor
  · intro id font
    cases id <;> cases font <;> decide
  · intro id
    cases id <;> decide

/-! ## Sprite construction and destruction -/

/-- What `lgfx_c_create_sprite` returns when both allocations succeed. -/
theorem create_sprite_ok (w : World) (target : lgfx_target_t) (wd ht : Int) (init : Pixels) :
    lgfx_c_create_sprite w target wd ht true (some init) =
      Except.ok (lgfx_target_t.heap (Table.fresh w.sprites),
        { w with
          heap := (Table.fresh w.heap, init) :: w.heap
          sprites :=
            (Table.fresh w.sprites,
              { base := { width := wd, height := ht, font := IFont.Font0,
                          cursor_x := 0, cursor_y := 0 }
                parent := target
                img := SpriteBuffer.owned (Table.fresh w.heap) }) :: w.sprites }) := by
  simp [lgfx_c_create_sprite, lgfx.operator_new, lgfx.createSprite, Table.find,
    Table.replace, lgfx.LGFX_Sprite_ctor]

/-- What `lgfx_c_create_sprite` does when the sprite object cannot be allocated. -/
theorem create_sprite_raise (w : World) (target : lgfx_target_t) (wd ht : Int)
    (mem : Option Pixels) :
    lgfx_c_create_sprite w target wd ht false mem = Except.error Exception.bad_alloc := by
  simp [lgfx_c_create_sprite, lgfx.operator_new]

/-- What `lgfx_c_create_sprite` returns when the pixel buffer cannot be allocated. -/
theorem create_sprite_nobuf (w : World) (target : lgfx_target_t) (wd ht : Int) :
    lgfx_c_create_sprite w target wd ht true none = Except.ok (lgfx_target_t.nullptr, w) := by
  simp [lgfx_c_create_sprite, lgfx.operator_new, lgfx.createSprite, Table.find,
    lgfx.operator_delete, lgfx.LGFX_Sprite_ctor, Table.remove,
    Table.remove_of_find_none (Table.find_fresh w.sprites)]

/-- A non-null handle returned by `lgfx_c_create_sprite` means both allocations
succeeded. -/
theorem create_sprite_nonnull {w : World} {target : lgfx_target_t} {wd ht : Int}
    {obj : Bool} {mem : Option Pixels} {handle : lgfx_target_t} {w1 : World}
    (hr : lgfx_c_create_sprite w target wd ht obj mem = Except.ok (handle, w1))
    (h : handle ≠ lgfx_target_t.nullptr) :
    obj = true ∧ ∃ init, mem = some init := by
  cases obj with
  | false => rw [create_sprite_raise] at hr; cases hr
  | true =>
    cases mem with
    | none =>
      rw [create_sprite_nobuf] at hr
      cases hr
      exact absurd rfl h
    | some init => exact ⟨rfl, init, rfl⟩

/-- What `lgfx_c_create_sprite_static` returns when its allocation succeeds. -/
theorem create_sprite_static_ok (w : World) (target : lgfx_target_t) (wd ht : Int)
    (buffer bpp : Nat) :
    lgfx_c_create_sprite_static w target wd ht buffer bpp true =
      Except.ok (lgfx_target_t.heap (Table.fresh w.sprites),
        { w with
          sprites :=
            (Table.fresh w.sprites,
              { base := { width := wd, height := ht, font := IFont.Font0,
                          cursor_x := 0, cursor_y := 0 }
                parent := target
                img := SpriteBuffer.borrowed buffer bpp }) :: w.sprites }) := by
  simp [lgfx_c_create_sprite_static, lgfx.operator_new, lgfx.setBuffer, Table.find,
    Table.replace, lgfx.LGFX_Sprite_ctor]

/-- What `lgfx_c_create_sprite_static` does when the sprite object cannot be
allocated. -/
theorem create_sprite_static_raise (w : World) (target : lgfx_target_t) (wd ht : Int)
    (buffer bpp : Nat) :
    lgfx_c_create_sprite_static w target wd ht buffer bpp false
      = Except.error Exception.bad_alloc := by
  simp [lgfx_c_create_sprite_static, lgfx.operator_new]

/-- What `lgfx_c_delete_sprite` does to a live sprite. -/
theorem delete_sprite_live {w : World} {a : Nat} {s : LGFX_Sprite}
    (h : Table.find a w.sprites = some s) :
    lgfx_c_delete_sprite w (lgfx_target_t.heap a) =
      match s.img with
      | .owned b =>
        { w with heap := Table.remove b w.heap, sprites := Table.remove a w.sprites }
      | _ => { w with sprites := Table.remove a w.sprites } := by
  have hne : lgfx_target_t.heap a ≠ lgfx_target_t.nullptr := by simp
  simp only [lgfx_c_delete_sprite, if_pos hne, lgfx.operator_delete, h]

/-- C4: the two failures of `lgfx_c_create_sprite`.  When the pixel buffer
cannot be allocated it returns the null handle and the memory after the call is
the memory before it, the sprite object made before having been deleted.  When
the sprite object cannot be allocated the plain `new` raises `bad_alloc`: the
call returns no handle, in particular not the null handle its guard was
written to return. -/
theorem create_sprite_failure_paths (w : World) (target : lgfx_target_t) (wd ht : Int) :
    lgfx_c_create_sprite w target wd ht true none = Except.ok (lgfx_target_t.nullptr, w) ∧
    (∀ mem, lgfx_c_create_sprite w target wd ht false mem
      = Except.error Exception.bad_alloc) ∧
    (∀ mem w1, lgfx_c_create_sprite w target wd ht false mem
      ≠ Except.ok (lgfx_target_t.nullptr, w1)) := by
  refine ⟨create_sprite_nobuf w target wd ht, fun mem => create_sprite_raise w target wd ht mem, ?_⟩
  intro mem w1 h
  rw [create_sprite_raise] at h
  cases h

/-- C5, as stated, fails: when the sprite object cannot be allocated,
`lgfx_c_create_sprite_static` returns no handle; the plain `new` raises
`bad_alloc`. -/
theorem create_sprite_static_can_raise :
    lgfx_c_create_sprite_static (World.black 20 20) lgfx_target_t.gfx 10 10 4096 8 false
      = Except.error Exception.bad_alloc ∧
    ¬ ∀ (w : World) (target : lgfx_target_t) (wd ht : Int) (buffer bpp : Nat) (obj : Bool),
        ∃ handle w1,
          lgfx_c_create_sprite_static w target wd ht buffer bpp obj = Except.ok (handle, w1) ∧
          handle ≠ lgfx_target_t.nullptr := by
  refine ⟨rfl, fun h => ?_⟩
  obtain ⟨handle, w1, hr, _⟩ := h (World.black 20 20) lgfx_target_t.gfx 10 10 4096 8 false
  rw [create_sprite_static_raise] at hr
  cases hr

/-- C5, amended: for every parent, size, caller buffer and bits per pixel,
whenever the sprite object is allocated `lgfx_c_create_sprite_static` returns a
non-null handle, and the sprite behind it wraps the caller's buffer with the
declared size and bits per pixel; the library heap and the caller's memory are
as before. -/
theorem create_sprite_static_result (w : World) (target : lgfx_target_t) (wd ht : Int)
    (buffer bpp : Nat) :
    ∃ handle w1,
      lgfx_c_create_sprite_static w target wd ht buffer bpp true = Except.ok (handle, w1) ∧
      handle = lgfx_target_t.heap (Table.fresh w.sprites) ∧
      handle ≠ lgfx_target_t.nullptr ∧
      Table.find (Table.fresh w.sprites) w1.sprites
        = some { base := { width := wd, height := ht, font := IFont.Font0,
                           cursor_x := 0, cursor_y := 0 }
                 parent := target
                 img := SpriteBuffer.borrowed buffer bpp } ∧
      w1.heap = w.heap ∧
      w1.caller = w.caller := by
  refine ⟨_, _, create_sprite_static_ok w target wd ht buffer bpp, rfl, ?_, ?_, rfl, rfl⟩
  · simp
  · simp [Table.find]

/-- C6: for every live sprite, `lgfx_c_delete_sprite` releases the sprite
object; it releases the pixel buffer when the buffer is owned, leaving every
other block of the library heap as it was, and leaves the library heap alone
when the buffer is borrowed; the device and the caller's memory are never
touched.  A sprite made by `lgfx_c_create_sprite` owns a live block of the
library heap and one made by `lgfx_c_create_sprite_static` borrows the caller's
buffer. -/
theorem delete_sprite_releases (w : World) (a : Nat) (s : LGFX_Sprite)
    (h : Table.find a w.sprites = some s) :
    (Table.find a (lgfx_c_delete_sprite w (lgfx_target_t.heap a)).sprites = none ∧
     (∀ j, j ≠ a → Table.find j (lgfx_c_delete_sprite w (lgfx_target_t.heap a)).sprites
        = Table.find j w.sprites) ∧
     (lgfx_c_delete_sprite w (lgfx_target_t.heap a)).caller = w.caller ∧
     (lgfx_c_delete_sprite w (lgfx_target_t.heap a)).gfx = w.gfx ∧
     (∀ b, s.img = SpriteBuffer.owned b →
        Table.find b (lgfx_c_delete_sprite w (lgfx_target_t.heap a)).heap = none ∧
        ∀ j, j ≠ b → Table.find j (lgfx_c_delete_sprite w (lgfx_target_t.heap a)).heap
          = Table.find j w.heap) ∧
     (∀ p bpp, s.img = SpriteBuffer.borrowed p bpp →
        (lgfx_c_delete_sprite w (lgfx_target_t.heap a)).heap = w.heap)) ∧
    (∀ (target : lgfx_target_t) (wd ht : Int) (init : Pixels),
      ∃ b w1,
        lgfx_c_create_sprite w target wd ht true (some init)
          = Except.ok (lgfx_target_t.heap (Table.fresh w.sprites), w1) ∧
        Table.find (Table.fresh w.sprites) w1.sprites
          = some { base := { width := wd, height := ht, font := IFont.Font0,
                             cursor_x := 0, cursor_y := 0 }
                   parent := target
                   img := SpriteBuffer.owned b } ∧
        Table.find b w1.heap = some init) ∧
    (∀ (target : lgfx_target_t) (wd ht : Int) (buffer bpp : Nat),
      ∃ w1,
        lgfx_c_create_sprite_static w target wd ht buffer bpp true
          = Except.ok (lgfx_target_t.heap (Table.fresh w.sprites), w1) ∧
        Table.find (Table.fresh w.sprites) w1.sprites
          = some { base := { width := wd, height := ht, font := IFont.Font0,
                             cursor_x := 0, cursor_y := 0 }
                   parent := target
                   img := SpriteBuffer.borrowed buffer bpp }) := by
  refine ⟨?_, ?_, ?_⟩
  · rw [delete_sprite_live h]
    obtain ⟨sb, sp, si⟩ := s
    cases si with
    | empty =>
      refine ⟨Table.find_remove_self _ _, fun j hj => Table.find_remove_ne hj _, rfl, rfl, ?_, ?_⟩
      · intro b hb; cases hb
      · intro p bpp _; rfl
    | owned b0 =>
      refine ⟨Table.find_remove_self _ _, fun j hj => Table.find_remove_ne hj _, rfl, rfl, ?_, ?_⟩
      · intro b hb
        cases hb
        exact ⟨Table.find_remove_self _ _, fun j hj => Table.find_remove_ne hj _⟩
      · intro p bpp hp; cases hp
    | borrowed p0 bpp0 =>
      refine ⟨Table.find_remove_self _ _, fun j hj => Table.find_remove_ne hj _, rfl, rfl, ?_, ?_⟩
      · intro b hb; cases hb
      · intro p bpp _; rfl
  · intro target wd ht init
    refine ⟨Table.fresh w.heap, _, create_sprite_ok w target wd ht init, ?_, ?_⟩
    · simp [Table.find]
    · simp [Table.find]
  · intro target wd ht buffer bpp
    refine ⟨_, create_sprite_static_ok w target wd ht buffer bpp, ?_⟩
    simp [Table.find]

/-- Witness of C6: a sprite over the caller's buffer at 4096 is made on a
20 x 20 device and deleted; the object is gone and the caller's memory is what
it was. -/
theorem delete_sprite_releases_witness :
    lgfx_c_create_sprite_static (World.black 20 20) lgfx_target_t.gfx 10 10 4096 8 true
      = Except.ok (lgfx_target_t.heap 1,
          { World.black 20 20 with
            sprites :=
              [(1, { base := { width := 10, height := 10, font := IFont.Font0,
                               cursor_x := 0, cursor_y := 0 }
                     parent := lgfx_target_t.gfx
                     img := SpriteBuffer.borrowed 4096 8 })] }) ∧
    Table.find 1 (lgfx_c_delete_sprite
        { World.black 20 20 with
          sprites :=
            [(1, { base := { width := 10, height := 10, font := IFont.Font0,
                             cursor_x := 0, cursor_y := 0 }
                   parent := lgfx_target_t.gfx
                   img := SpriteBuffer.borrowed 4096 8 })] }
        (lgfx_target_t.heap 1)).sprites = none ∧
    (lgfx_c_delete_sprite
        { World.black 20 20 with
          sprites :=
            [(1, { base := { width := 10, height := 10, font := IFont.Font0,
                             cursor_x := 0, cursor_y := 0 }
                   parent := lgfx_target_t.gfx
                   img := SpriteBuffer.borrowed 4096 8 })] }
        (lgfx_target_t.heap 1)).caller = (World.black 20 20).caller :=
  ⟨rfl,
   (delete_sprite_releases
      { World.black 20 20 with
        sprites :=
          [(1, { base := { width := 10, height := 10, font := IFont.Font0,
                           cursor_x := 0, cursor_y := 0 }
                 parent := lgfx_target_t.gfx
                 img := SpriteBuffer.borrowed 4096 8 })] } 1
      { base := { width := 10, height := 10, font := IFont.Font0, cursor_x := 0, cursor_y := 0 }
        parent := lgfx_target_t.gfx
        img := SpriteBuffer.borrowed 4096 8 } rfl).1.1,
   (delete_sprite_releases
      { World.black 20 20 with
        sprites :=
          [(1, { base := { width := 10, height := 10, font := IFont.Font0,
                           cursor_x := 0, cursor_y := 0 }
                 parent := lgfx_target_t.gfx
                 img := SpriteBuffer.borrowed 4096 8 })] } 1
      { base := { width := 10, height := 10, font := IFont.Font0, cursor_x := 0, cursor_y := 0 }
        parent := lgfx_target_t.gfx
        img := SpriteBuffer.borrowed 4096 8 } rfl).1.2.2.1⟩

/-- C7: whenever `lgfx_c_create_sprite` returns a sprite handle, `lgfx_c_width`
and `lgfx_c_height` of that handle are the `w` and `h` it was given. -/
theorem create_sprite_extents (w : World) (target : lgfx_target_t) (wd ht : Int)
    (obj : Bool) (mem : Option Pixels) (handle : lgfx_target_t) (w1 : World)
    (hr : lgfx_c_create_sprite w target wd ht obj mem = Except.ok (handle, w1))
    (h : handle ≠ lgfx_target_t.nullptr) :
    lgfx_c_width w1 handle = wd ∧ lgfx_c_height w1 handle = ht := by
  obtain ⟨ho, init, hm⟩ := create_sprite_nonnull hr h
  subst ho; subst hm
  rw [create_sprite_ok] at hr
  cases hr
  simp [lgfx_c_width, lgfx_c_height, lgfx.width, lgfx.height, World.target, Table.find]

/-- Witness of C7: a 10 x 10 sprite of a 20 x 20 device. -/
theorem create_sprite_extents_witness :
    lgfx_c_create_sprite (World.black 20 20) lgfx_target_t.gfx 10 10 true
        (some (fun _ _ => Color.rgb888 0))
      = Except.ok (lgfx_target_t.heap 1,
          { World.black 20 20 with
            heap := [(1, fun _ _ => Color.rgb888 0)]
            sprites :=
              [(1, { base := { width := 10, height := 10, font := IFont.Font0,
                               cursor_x := 0, cursor_y := 0 }
                     parent := lgfx_target_t.gfx
                     img := SpriteBuffer.owned 1 })] }) ∧
    lgfx_c_width
        { World.black 20 20 with
          heap := [(1, fun _ _ => Color.rgb888 0)]
          sprites :=
            [(1, { base := { width := 10, height := 10, font := IFont.Font0,
                             cursor_x := 0, cursor_y := 0 }
                   parent := lgfx_target_t.gfx
                   img := SpriteBuffer.owned 1 })] }
        (lgfx_target_t.heap 1) = 10 :=
  ⟨rfl,
   (create_sprite_extents (World.black 20 20) lgfx_target_t.gfx 10 10 true
      (some (fun _ _ => Color.rgb888 0)) (lgfx_target_t.heap 1) _ rfl (by decide)).1⟩

/-! ## Drawing -/

/-- C8: a sprite of size `wd x ht` is created from a live parent, cleared to
the colour `c` with `lgfx_c_clear_rgb888` and pushed at `(x, y)`.  Afterwards
the parent has the extents it had, holds `c` at every point of
`[x, x+wd) x [y, y+ht)` that lies inside its bounds, and holds its previous
value at every other point. -/
theorem push_cleared_sprite (w : World) (parent : lgfx_target_t) (wd ht : Int)
    (obj : Bool) (mem : Option Pixels) (c : Nat) (x y : Int) (pb : LovyanGFX) (old : Pixels)
    (sprite : lgfx_target_t) (w1 : World)
    (hb : w.target parent = some pb) (hp : w.pixels parent = some old)
    (hr : lgfx_c_create_sprite w parent wd ht obj mem = Except.ok (sprite, w1))
    (hs : sprite ≠ lgfx_target_t.nullptr) :
    (lgfx_c_push_sprite (lgfx_c_clear_rgb888 w1 sprite c) sprite x y).target parent
      = some pb ∧
    ∃ new,
      (lgfx_c_push_sprite (lgfx_c_clear_rgb888 w1 sprite c) sprite x y).pixels parent
        = some new ∧
      ∀ px py, new px py =
        if x ≤ px ∧ px < x + wd ∧ y ≤ py ∧ py < y + ht ∧ pb.inBounds px py
        then Color.rgb888 c else old px py := by
  obtain ⟨ho, init, hm⟩ := create_sprite_nonnull hr hs
  subst ho; subst hm
  rw [create_sprite_ok] at hr
  cases hr
  have e2 : lgfx_c_clear_rgb888
      { w with
        heap := (Table.fresh w.heap, init) :: w.heap
        sprites :=
          (Table.fresh w.sprites,
            { base := { width := wd, height := ht, font := IFont.Font0,
                        cursor_x := 0, cursor_y := 0 }
              parent := parent
              img := SpriteBuffer.owned (Table.fresh w.heap) }) :: w.sprites }
      (lgfx_target_t.heap (Table.fresh w.sprites)) c =
      { w with
        heap := (Table.fresh w.heap,
          fun px py => if 0 ≤ px ∧ px < wd ∧ 0 ≤ py ∧ py < ht then Color.rgb888 c
                       else init px py) :: w.heap
        sprites :=
          (Table.fresh w.sprites,
            { base := { width := wd, height := ht, font := IFont.Font0,
                        cursor_x := 0, cursor_y := 0 }
              parent := parent
              img := SpriteBuffer.owned (Table.fresh w.heap) }) :: w.sprites } := by
    simp [lgfx_c_clear_rgb888, lgfx.clear, World.target, World.pixels, World.setPixels,
      Table.find, Table.replace, LovyanGFX.inBounds]
  rw [e2]
  have hdst := World.pixels_cons_fresh hp
    { base := { width := wd, height := ht, font := IFont.Font0, cursor_x := 0, cursor_y := 0 }
      parent := parent
      img := SpriteBuffer.owned (Table.fresh w.heap) }
    (fun px py => if 0 ≤ px ∧ px < wd ∧ 0 ≤ py ∧ py < ht then Color.rgb888 c else init px py)
  have htb := World.target_cons_fresh hb
    { base := { width := wd, height := ht, font := IFont.Font0, cursor_x := 0, cursor_y := 0 }
      parent := parent
      img := SpriteBuffer.owned (Table.fresh w.heap) }
    ((Table.fresh w.heap,
      fun px py => if 0 ≤ px ∧ px < wd ∧ 0 ≤ py ∧ py < ht then Color.rgb888 c
                   else init px py) :: w.heap)
  have hf : Table.find (Table.fresh w.sprites)
      ({ w with
         heap := (Table.fresh w.heap,
           fun px py => if 0 ≤ px ∧ px < wd ∧ 0 ≤ py ∧ py < ht then Color.rgb888 c
                        else init px py) :: w.heap
         sprites :=
           (Table.fresh w.sprites,
             { base := { width := wd, height := ht, font := IFont.Font0,
                         cursor_x := 0, cursor_y := 0 }
               parent := parent
               img := SpriteBuffer.owned (Table.fresh w.heap) }) :: w.sprites } : World).sprites
      = some { base := { width := wd, height := ht, font := IFont.Font0,
                         cursor_x := 0, cursor_y := 0 }
               parent := parent
               img := SpriteBuffer.owned (Table.fresh w.heap) } := by
    simp [Table.find]
  have hsrc : ({ w with
         heap := (Table.fresh w.heap,
           fun px py => if 0 ≤ px ∧ px < wd ∧ 0 ≤ py ∧ py < ht then Color.rgb888 c
                        else init px py) :: w.heap
         sprites :=
           (Table.fresh w.sprites,
             { base := { width := wd, height := ht, font := IFont.Font0,
                         cursor_x := 0, cursor_y := 0 }
               parent := parent
               img := SpriteBuffer.owned (Table.fresh w.heap) }) :: w.sprites } : World).pixels
        (lgfx_target_t.heap (Table.fresh w.sprites))
      = some (fun px py => if 0 ≤ px ∧ px < wd ∧ 0 ≤ py ∧ py < ht then Color.rgb888 c
                           else init px py) := by
    simp [World.pixels, Table.find]
  simp only [lgfx_c_push_sprite]
  rw [pushSprite_live x y hf hsrc htb hdst]
  refine ⟨?_, _, World.pixels_setPixels _ hdst, ?_⟩
  · rw [World.target_setPixels]; exact htb
  · intro px py
    by_cases hc : x ≤ px ∧ px < x + wd ∧ y ≤ py ∧ py < y + ht ∧ pb.inBounds px py
    · have hin : 0 ≤ px - x ∧ px - x < wd ∧ 0 ≤ py - y ∧ py - y < ht := by
        obtain ⟨h1, h2, h3, h4, _⟩ := hc
        omega
      simp only [if_pos hc, if_pos hin]
    · simp only [if_neg hc]

/-- Witness of C8: a 10 x 10 sprite made on a 20 x 20 black device, cleared to
`0x00FF00` and pushed at `(5, 5)`: green on `[5, 15) x [5, 15)`, black
elsewhere; four points are read back. -/
theorem push_cleared_sprite_witness :
    lgfx_c_create_sprite (World.black 20 20) lgfx_target_t.gfx 10 10 true
        (some (fun _ _ => Color.rgb332 7))
      = Except.ok (lgfx_target_t.heap 1,
          { World.black 20 20 with
            heap := [(1, fun _ _ => Color.rgb332 7)]
            sprites :=
              [(1, { base := { width := 10, height := 10, font := IFont.Font0,
                               cursor_x := 0, cursor_y := 0 }
                     parent := lgfx_target_t.gfx
                     img := SpriteBuffer.owned 1 })] }) ∧
    (∃ new,
      (lgfx_c_push_sprite
          (lgfx_c_clear_rgb888
            { World.black 20 20 with
              heap := [(1, fun _ _ => Color.rgb332 7)]
              sprites :=
                [(1, { base := { width := 10, height := 10, font := IFont.Font0,
                                 cursor_x := 0, cursor_y := 0 }
                       parent := lgfx_target_t.gfx
                       img := SpriteBuffer.owned 1 })] }
            (lgfx_target_t.heap 1) 0x00FF00)
          (lgfx_target_t.heap 1) 5 5).pixels lgfx_target_t.gfx = some new ∧
      ∀ px py, new px py =
        if 5 ≤ px ∧ px < 5 + 10 ∧ 5 ≤ py ∧ py < 5 + 10
            ∧ (World.black 20 20).gfx.base.inBounds px py
        then Color.rgb888 0x00FF00 else Color.rgb888 0) ∧
    ((lgfx_c_push_sprite
          (lgfx_c_clear_rgb888
            { World.black 20 20 with
              heap := [(1, fun _ _ => Color.rgb332 7)]
              sprites :=
                [(1, { base := { width := 10, height := 10, font := IFont.Font0,
                                 cursor_x := 0, cursor_y := 0 }
                       parent := lgfx_target_t.gfx
                       img := SpriteBuffer.owned 1 })] }
            (lgfx_target_t.heap 1) 0x00FF00)
          (lgfx_target_t.heap 1) 5 5).pixels lgfx_target_t.gfx).map
        (fun p => [p 5 5, p 14 14, p 4 5, p 15 15])
      = some [Color.rgb888 0x00FF00, Color.rgb888 0x00FF00, Color.rgb888 0, Color.rgb888 0] :=
  ⟨rfl,
   (push_cleared_sprite (World.black 20 20) lgfx_target_t.gfx 10 10 true
      (some (fun _ _ => Color.rgb332 7)) 0x00FF00 5 5 (World.black 20 20).gfx.base
      (fun _ _ => Color.rgb888 0) (lgfx_target_t.heap 1) _ rfl rfl rfl (by decide)).2,
   by decide⟩

/-- C9: when `width` or `height` is zero or negative, `lgfx_c_fill_rect_rgb332`
and `lgfx_c_fill_rect_rgb888` change nothing: the memory after the call is the
memory before it, and so is every pixel of the target. -/
theorem fill_rect_nonpositive_noop (w : World) (target : lgfx_target_t)
    (left top width height : Int) (color : Nat) (h : width ≤ 0 ∨ height ≤ 0) :
    lgfx_c_fill_rect_rgb332 w target left top width height color = w ∧
    lgfx_c_fill_rect_rgb888 w target left top width height color = w ∧
    (lgfx_c_fill_rect_rgb332 w target left top width height color).pixels target
      = w.pixels target ∧
    (lgfx_c_fill_rect_rgb888 w target left top width height color).pixels target
      = w.pixels target := by
  have key : ∀ c, lgfx.fillRect w target left top width height c = w := by
    intro c
    apply fillRect_no_point
    intro b _ px py hc
    obtain ⟨h1, h2, h3, h4, _⟩ := hc
    omega
  have e1 : lgfx_c_fill_rect_rgb332 w target left top width height color = w := key _
  have e2 : lgfx_c_fill_rect_rgb888 w target left top width height color = w := key _
  rw [e1, e2]
  exact ⟨rfl, rfl, rfl, rfl⟩

/-- Witness of C9: a rectangle of width -3 on a 20 x 20 device. -/
theorem fill_rect_nonpositive_noop_witness :
    lgfx_c_fill_rect_rgb888 (World.black 20 20) lgfx_target_t.gfx 5 5 (-3) 4 0xFF0000
      = World.black 20 20 :=
  (fill_rect_nonpositive_noop (World.black 20 20) lgfx_target_t.gfx 5 5 (-3) 4 0xFF0000
    (Or.inl (by decide))).2.1

/-- C10: when the rectangle lies fully outside the target (it starts at or
beyond the right or bottom edge, or ends at or before the left or top edge),
`lgfx_c_fill_rect_rgb332` and `lgfx_c_fill_rect_rgb888` change nothing, for
every colour: the memory after the call is the memory before it, and so is
every pixel of the target. -/
theorem fill_rect_outside_noop (w : World) (target : lgfx_target_t)
    (left top width height : Int) (color : Nat)
    (h : lgfx_c_width w target ≤ left ∨ lgfx_c_height w target ≤ top ∨
         left + width ≤ 0 ∨ top + height ≤ 0) :
    lgfx_c_fill_rect_rgb332 w target left top width height color = w ∧
    lgfx_c_fill_rect_rgb888 w target left top width height color = w ∧
    (lgfx_c_fill_rect_rgb332 w target left top width height color).pixels target
      = w.pixels target ∧
    (lgfx_c_fill_rect_rgb888 w target left top width height color).pixels target
      = w.pixels target := by
  have key : ∀ c, lgfx.fillRect w target left top width height c = w := by
    intro c
    apply fillRect_no_point
    intro b hb px py hc
    simp only [lgfx_c_width, lgfx_c_height, lgfx.width, lgfx.height, hb] at h
    obtain ⟨h1, h2, h3, h4, h5, h6, h7, h8⟩ := hc
    omega
  have e1 : lgfx_c_fill_rect_rgb332 w target left top width height color = w := key _
  have e2 : lgfx_c_fill_rect_rgb888 w target left top width height color = w := key _
  rw [e1, e2]
  exact ⟨rfl, rfl, rfl, rfl⟩

/-- Witness of C10: a 4 x 4 rectangle at `(20, 3)`, right of a 20 x 20 device. -/
theorem fill_rect_outside_noop_witness :
    lgfx_c_fill_rect_rgb332 (World.black 20 20) lgfx_target_t.gfx 20 3 4 4 0xE0
      = World.black 20 20 :=
  (fill_rect_outside_noop (World.black 20 20) lgfx_target_t.gfx 20 3 4 4 0xE0
    (Or.inl (by decide))).1

/-! ## The device -/

/-- C11: `lgfx_c_setup` returns the handle of the one static device object,
whatever the memory it is called in and however many calls of it came before;
it makes no sprite object and no buffer; and the two other operations that
return a handle, `lgfx_c_create_sprite` and `lgfx_c_create_sprite_static`,
never return the device handle. -/
theorem setup_single_device (init : LGFX → LGFX) :
    (∀ w, (lgfx_c_setup init w).1 = lgfx_target_t.gfx) ∧
    (∀ (n : Nat) (w : World),
      (lgfx_c_setup init ((fun v => (lgfx_c_setup init v).2)^[n] w)).1
        = (lgfx_c_setup init w).1) ∧
    (∀ w, (lgfx_c_setup init w).2.sprites = w.sprites ∧
          (lgfx_c_setup init w).2.heap = w.heap ∧
          (lgfx_c_setup init w).2.caller = w.caller ∧
          (lgfx_c_setup init w).2.gfx.epd_mode = epd_mode_t.epd_quality) ∧
    (∀ w target wd ht obj mem w1,
      lgfx_c_create_sprite w target wd ht obj mem ≠ Except.ok (lgfx_target_t.gfx, w1)) ∧
    (∀ w target wd ht buffer bpp obj w1,
      lgfx_c_create_sprite_static w target wd ht buffer bpp obj
        ≠ Except.ok (lgfx_target_t.gfx, w1)) := by
  refine ⟨fun _ => rfl, fun _ _ => rfl, fun _ => ⟨rfl, rfl, rfl, rfl⟩, ?_, ?_⟩
  · intro w target wd ht obj mem w1 h
    cases obj with
    | false => rw [create_sprite_raise] at h; cases h
    | true =>
      cases mem with
      | none => rw [create_sprite_nobuf] at h; cases h
      | some init => rw [create_sprite_ok] at h; cases h
  · intro w target wd ht buffer bpp obj w1 h
    cases obj with
    | false => rw [create_sprite_static_raise] at h; cases h
    | true => rw [create_sprite_static_ok] at h; cases h

/-! ## Anchors -/

/-- C12: `textdatum_t` has 16 named members; each is named after one vertical
alignment of top, middle, bottom, baseline and one horizontal alignment of
left, center, right, and its value is the vertical code (0, 4, 8, 16) plus the
horizontal code (0, 1, 2).  Every pair of alignments has a member; `center` and
`centre` name the same value, so the 16 members take 12 values. -/
theorem textdatum_members :
    textdatum_t.members.length = 16 ∧
    textdatum_t.members.Nodup ∧
    (∀ d : textdatum_t, d ∈ textdatum_t.members) ∧
    (∀ d : textdatum_t, d.toInt = d.vertical.code + d.horizontal.code) ∧
    (∀ (v : Vertical) (h : Horizontal), ∃ d : textdatum_t, d.vertical = v ∧ d.horizontal = h) ∧
    (textdatum_t.members.map textdatum_t.toInt).dedup
      = [0, 1, 2, 4, 5, 6, 8, 9, 10, 16, 17, 18] := by
  refine ⟨rfl, by decide, ?_, ?_, ?_, by decide⟩
  · intro d; cases d <;> decide
  · intro d; cases d <;> rfl
  · intro v h
    cases v <;> cases h
    · exact ⟨textdatum_t.top_left, rfl, rfl⟩
    · exact ⟨textdatum_t.top_center, rfl, rfl⟩
    · exact ⟨textdatum_t.top_right, rfl, rfl⟩
    · exact ⟨textdatum_t.middle_left, rfl, rfl⟩
    · exact ⟨textdatum_t.middle_center, rfl, rfl⟩
    · exact ⟨textdatum_t.middle_right, rfl, rfl⟩
    · exact ⟨textdatum_t.bottom_left, rfl, rfl⟩
    · exact ⟨textdatum_t.bottom_center, rfl, rfl⟩
    · exact ⟨textdatum_t.bottom_right, rfl, rfl⟩
    · exact ⟨textdatum_t.baseline_left, rfl, rfl⟩
    · exact ⟨textdatum_t.baseline_center, rfl, rfl⟩
    · exact ⟨textdatum_t.baseline_right, rfl, rfl⟩

/-! ## Grayscale images -/

/-- C13: `lgfx_c_push_image_grayscale` hands the origin, the size and the
samples on unchanged, with the depth `grayscale_8bit`, `TFT_WHITE` as the
colour of full intensity and `TFT_BLACK` as the colour of zero intensity: on a
live target every point of `[x, x+wd) x [y, y+ht)` inside the bounds then holds
the sample of its row and column between these two reference colours, and
every other point holds its previous value. -/
theorem push_image_grayscale_forwards (w : World) (target : lgfx_target_t)
    (x y wd ht : Int) (data : Nat → Nat) :
    lgfx_c_push_image_grayscale w target x y wd ht data
      = lgfx.pushGrayscaleImage w target x y wd ht data color_depth_t.grayscale_8bit
          colors.TFT_WHITE colors.TFT_BLACK ∧
    (∀ b old, w.target target = some b → w.pixels target = some old →
      ∃ new,
        (lgfx_c_push_image_grayscale w target x y wd ht data).pixels target = some new ∧
        ∀ px py, new px py =
          if x ≤ px ∧ px < x + wd ∧ y ≤ py ∧ py < y + ht ∧ b.inBounds px py
          then Color.grayscale (data ((py - y) * wd + (px - x)).toNat)
                 colors.TFT_WHITE colors.TFT_BLACK
          else old px py) := by
  refine ⟨rfl, ?_⟩
  intro b old hb hp
  simp only [lgfx_c_push_image_grayscale, lgfx.pushGrayscaleImage, hb, hp]
  exact ⟨_, World.pixels_setPixels _ hp, fun _ _ => rfl⟩

/-- Witness of C13: a 2 x 2 image with the samples 0, 255, 128, 64 pushed at
`(1, 1)` onto a 20 x 20 black device; five points are read back. -/
theorem push_image_grayscale_forwards_witness :
    (∃ new,
      (lgfx_c_push_image_grayscale (World.black 20 20) lgfx_target_t.gfx 1 1 2 2
          (fun k => [0, 255, 128, 64].getD k 0)).pixels lgfx_target_t.gfx = some new ∧
      ∀ px py, new px py =
        if 1 ≤ px ∧ px < 1 + 2 ∧ 1 ≤ py ∧ py < 1 + 2
            ∧ (World.black 20 20).gfx.base.inBounds px py
        then Color.grayscale ((fun k => [0, 255, 128, 64].getD k 0)
               ((py - 1) * 2 + (px - 1)).toNat) colors.TFT_WHITE colors.TFT_BLACK
        else Color.rgb888 0) ∧
    ((lgfx_c_push_image_grayscale (World.black 20 20) lgfx_target_t.gfx 1 1 2 2
          (fun k => [0, 255, 128, 64].getD k 0)).pixels lgfx_target_t.gfx).map
        (fun p => [p 1 1, p 2 1, p 1 2, p 2 2, p 3 3])
      = some [Color.grayscale 0 colors.TFT_WHITE colors.TFT_BLACK,
              Color.grayscale 255 colors.TFT_WHITE colors.TFT_BLACK,
              Color.grayscale 128 colors.TFT_WHITE colors.TFT_BLACK,
              Color.grayscale 64 colors.TFT_WHITE colors.TFT_BLACK,
              Color.rgb888 0] :=
  ⟨(push_image_grayscale_forwards (World.black 20 20) lgfx_target_t.gfx 1 1 2 2
      (fun k => [0, 255, 128, 64].getD k 0)).2 (World.black 20 20).gfx.base
      (fun _ _ => Color.rgb888 0) rfl rfl,
   by decide⟩

/-! ## Deleting the null handle -/

/-- C14: `lgfx_c_delete_sprite` applied to the null handle changes nothing:
the memory after the call is the memory before it, with the same live sprite
objects, the same buffers, the same caller memory and the same device. -/
theorem delete_sprite_null (w : World) :
    lgfx_c_delete_sprite w lgfx_target_t.nullptr = w ∧
    (lgfx_c_delete_sprite w lgfx_target_t.nullptr).sprites = w.sprites ∧
    (lgfx_c_delete_sprite w lgfx_target_t.nullptr).heap = w.heap ∧
    (lgfx_c_delete_sprite w lgfx_target_t.nullptr).caller = w.caller ∧
    (lgfx_c_delete_sprite w lgfx_target_t.nullptr).gfx = w.gfx := by
  have e : lgfx_c_delete_sprite w lgfx_target_t.nullptr = w := by
    simp only [lgfx_c_delete_sprite, ne_eq, not_true_eq_false, if_false]
  rw [e]
  exact ⟨rfl, rfl, rfl, rfl, rfl⟩

end LgfxC
